import Mathlib

/-!
Verification of `gpxannotate.py`, a tool that annotates GPX 1.0 files:
for each track it computes the track's length, writes it (together with an
optional duration line) into the track's `<desc>` element, optionally renames
tracks from command-line arguments, updates the root `creator` attribute, and
replaces the input file via a write-to-temporary-then-rename protocol.

Modelling conventions:
* Numeric values (coordinates, distances) are modelled as rationals `ℚ`;
  Python floats are out of scope of a shallow embedding.
* An XML attribute that may be absent is `Option`; its string value, which is
  float-parsed by the script, is modelled by the parse result
  (`none` = present but not parseable, `some q` = parses to `q`).
* An element's text may be `None` in ElementTree; text is `Option String`.
* The external great-circle routine `gps.EarthDistance` is a library call, not
  part of this repository; all definitions are parametric in it (`ed`).
* Timestamps of `<time>` children are carried as already-parsed integers
  (seconds); `dateutil` parsing and `strftime` rendering are external library
  calls, rendered here by `toString`, which is stable and unambiguous.
* `sys.exit n` is modelled as an error value `RunError.exitCode n`; an
  exception the script does not catch (e.g. a `TypeError`) is modelled as
  `RunError.typeError` and surfaces as the distinct termination status
  `ExitStatus.uncaughtException` (the interpreter's traceback exit, not one of
  the script's own `sys.exit` calls).
-/

namespace Gpx

/-- A `<trkpt>` element.  `lat`/`lon` model the raw attributes: `none` means
the attribute is absent, `some none` means it is present but its value does
not parse as a float, `some (some q)` means it parses to `q`.  `time` is the
parsed timestamp of the optional `<time>` child. -/
structure TrackPoint where
  lat : Option (Option ℚ)
  lon : Option (Option ℚ)
  time : Option ℤ
  deriving Repr, DecidableEq

/-- A `<trk>` element.  `name`/`desc` model the optional `<name>`/`<desc>`
child: `none` means the element is absent, `some t` means it is present with
text `t` (and ElementTree gives `t = none` for an element without text).
`points` is the flattened, document-ordered list of `<trkpt>` elements found
by `findall('trkseg/trkpt')`. -/
structure Track where
  name : Option (Option String)
  desc : Option (Option String)
  points : List TrackPoint
  deriving Repr, DecidableEq

/-- The parsed document: root `version` attribute, whether the root tag ends
in `}gpx`, the root `creator` attribute, and the list of `<trk>` elements in
document order. -/
structure Document where
  version : Option String
  rootTagIsGpx : Bool
  creator : Option String
  tracks : List Track
  deriving Repr, DecidableEq

/-- How a run of the script ends abnormally: `sys.exit n`, or an exception
the script never catches (the `TypeError` from `descElm.text += '\n'` when
the text is `None`). -/
inductive RunError where
  | exitCode (n : Nat)
  | typeError
  deriving Repr, DecidableEq

/-- Pads the fractional part `k < 100` to two digits, as `%.2f` does. -/
def padFrac (k : ℕ) : String :=
  if k < 10 then "0" ++ toString k else toString k

/-- `⌊q * 100 + 1 / 2⌋` computed on the numerator and denominator, i.e. the
number of hundredths closest to `q` (rounding half up). -/
def round100 (q : ℚ) : ℤ :=
  Int.ediv (200 * q.num + (q.den : ℤ)) (2 * (q.den : ℤ))

/-- Renders a rational with exactly two decimal places, modelling the Python
format `'%.2f' % q` (rounding to the nearest hundredth; the exact tie-break
of binary floats does not arise at the values this program prints). -/
def format2dp (q : ℚ) : String :=
  let n : ℤ := round100 q
  (if n < 0 then "-" else "") ++ toString (n.natAbs / 100) ++ "." ++ padFrac (n.natAbs % 100)

/-- `formatDistance` from `gpxannotate.py` (lines 57-61): distances of at
least 1000 m are shown in kilometres, otherwise in metres, both with two
decimal places. -/
def formatDistance (dist : ℚ) : String :=
  if 1000 ≤ dist then format2dp (dist / 1000) ++ " km"
  else format2dp dist ++ " m"

/-- Lines 135-138: the key check of the distance loop, `'lat' in keys and
'lon' in keys` for one point. -/
def pointKeysOk (p : TrackPoint) : Bool :=
  p.lat.isSome && p.lon.isSome

/-- Lines 142-143: `(float(p.get('lat')), float(p.get('lon')))`; `none` when
an attribute is absent or its value does not parse as a float. -/
def parsePoint (p : TrackPoint) : Option (ℚ × ℚ) :=
  match p.lat, p.lon with
  | some (some la), some (some lo) => some (la, lo)
  | _, _ => none

/-- Lines 130-149: the distance loop `for j in range(1, len(points))`, with
`a` the previous point, carrying the accumulator.  For each consecutive pair
it first checks that both points carry `lat` and `lon` attributes
(`sys.exit 4` otherwise), then float-parses them (`sys.exit 4` on
`ValueError`), then adds `ed` of the pair to the accumulator. -/
def distLoop (ed : ℚ × ℚ → ℚ × ℚ → ℚ) : ℚ → TrackPoint → List TrackPoint → Except RunError ℚ
  | acc, _, [] => Except.ok acc
  | acc, a, b :: rest =>
    if pointKeysOk a && pointKeysOk b then
      match parsePoint a, parsePoint b with
      | some pa, some pb => distLoop ed (acc + ed pa pb) b rest
      | _, _ => Except.error (RunError.exitCode 4)
    else Except.error (RunError.exitCode 4)

/-- Lines 129-149: `distance = 0` followed by the loop over consecutive
pairs.  A list with fewer than two points runs zero iterations. -/
def calcDistance (ed : ℚ × ℚ → ℚ × ℚ → ℚ) (pts : List TrackPoint) : Except RunError ℚ :=
  match pts with
  | [] => Except.ok 0
  | p :: rest => distLoop ed 0 p rest

/-- Lines 121-127: `<desc>` handling.  If the element is absent it is created
with text `''`; otherwise the script runs `descElm.text += '\n'`, which
appends a newline when the text is a string and raises an uncaught
`TypeError` when the text is `None`.  Returns the text the `Distance:` line
is appended to. -/
def descStart : Option (Option String) → Except RunError String
  | none => Except.ok ""
  | some none => Except.error RunError.typeError
  | some (some s) => Except.ok (s ++ "\n")

/-- Lines 164-168: `'Duration: %s (%s to %s)'`, with the `timedelta` and the
two `strftime` renderings modelled by `toString` on the parsed seconds. -/
def durationLine (s e : ℤ) : String :=
  "Duration: " ++ toString (e - s) ++ " (" ++ toString s ++ " to " ++ toString e ++ ")"

/-- Lines 154-170: when the track has more than one point and both the first
and the last point carry a `<time>` child, a newline plus the duration line
is appended to the description; otherwise nothing is. -/
def durationSuffix (pts : List TrackPoint) : String :=
  if 1 < pts.length then
    match pts.head?.bind TrackPoint.time, pts.getLast?.bind TrackPoint.time with
    | some s, some e => "\n" ++ durationLine s e
    | _, _ => ""
  else ""

/-- Lines 172-180: `if i + 2 < len(sys.argv)`, i.e. track `i` is renamed
exactly when rename argument `i` was supplied (`renames` models
`sys.argv[2:]`); the `<name>` element is created if absent and its text set. -/
def renameStep (renames : List String) (i : Nat) (name0 : Option (Option String)) :
    Option (Option String) :=
  match renames[i]? with
  | some nm => some (some nm)
  | none => name0

/-- Result of processing one track: the updated track, and whether the
empty-track warning was printed for it. -/
structure TrackResult where
  track : Track
  warnedEmpty : Bool
  deriving Repr, DecidableEq

/-- Lines 109-180, body of the main loop for track `i`: an empty track gets
a warning and `continue` (nothing on the track is touched, the rename
included); otherwise the description element is fetched or created, the
distance accumulated, `Distance:`/`Duration:` text built, and the rename
applied when an argument was supplied. -/
def processTrack (ed : ℚ × ℚ → ℚ × ℚ → ℚ) (renames : List String) (i : Nat)
    (track : Track) : Except RunError TrackResult :=
  if track.points.length = 0 then
    Except.ok ⟨track, true⟩
  else
    match descStart track.desc with
    | Except.error e => Except.error e
    | Except.ok pre =>
      match calcDistance ed track.points with
      | Except.error e => Except.error e
      | Except.ok dist =>
        let text := pre ++ "Distance: " ++ formatDistance dist ++ durationSuffix track.points
        Except.ok ⟨⟨renameStep renames i track.name, some (some text), track.points⟩, false⟩

/-- The main loop over all tracks, starting at index `i`; the first
`sys.exit` or uncaught exception aborts the whole run. -/
def processTracks (ed : ℚ × ℚ → ℚ × ℚ → ℚ) (renames : List String) :
    Nat → List Track → Except RunError (List Track)
  | _, [] => Except.ok []
  | i, t :: ts =>
    match processTrack ed renames i t with
    | Except.error e => Except.error e
    | Except.ok r =>
      match processTracks ed renames (i + 1) ts with
      | Except.error e => Except.error e
      | Except.ok ts2 => Except.ok (r.track :: ts2)

/-- Lines 183-190: the `creator` attribute update that opens the write
stage.  `if not gpxCreator` is true for an absent attribute and for the
empty string alike; otherwise `' (processed by <tool-name>)'` is appended. -/
def updateCreator (toolName : String) (doc : Document) : Document :=
  let newCreator :=
    match doc.creator with
    | none => toolName
    | some c => if c = "" then toolName else c ++ " (processed by " ++ toolName ++ ")"
  { doc with creator := some newCreator }

/-- Lines 91-190: everything between a successful parse and the write stage:
the GPX validity checks (`sys.exit 4`), the track presence check
(`sys.exit 5`), the per-track loop, and the `creator` update.  Returns the
document handed to the durable writer. -/
def run (ed : ℚ × ℚ → ℚ × ℚ → ℚ) (toolName : String) (doc : Document)
    (renames : List String) : Except RunError Document :=
  if doc.version.getD "" = "" || !doc.rootTagIsGpx then Except.error (RunError.exitCode 4)
  else if doc.version ≠ some "1.0" then Except.error (RunError.exitCode 4)
  else if doc.tracks.length = 0 then Except.error (RunError.exitCode 5)
  else
    match processTracks ed renames 0 doc.tracks with
    | Except.error e => Except.error e
    | Except.ok ts => Except.ok (updateCreator toolName { doc with tracks := ts })

/-- Fault model for the write stage: which of the four I/O steps of lines
193-226 fails (temp-file creation, serialization into it, the
flush/fsync/close sequence, the final rename). -/
structure WriteEnv where
  createFails : Bool
  serializeFails : Bool
  syncFails : Bool
  renameFails : Bool
  deriving Repr, DecidableEq

/-- How the process terminates: normally, via `sys.exit code`, or by an
exception no handler catches (the interpreter prints a traceback). -/
inductive ExitStatus where
  | success
  | exited (code : Nat)
  | uncaughtException
  deriving Repr, DecidableEq

/-- Observable outcome of the write stage: termination status, whether the
temporary file is left behind on disk, and whether the target path was
replaced by the new contents. -/
structure WriteResult where
  status : ExitStatus
  tempLeftBehind : Bool
  originalReplaced : Bool
  deriving Repr, DecidableEq

/-- Lines 193-226, the durable-write protocol.  Temp-file creation and
serialization sit in a `try` whose handler unlinks the temp file (when one
was created) and exits 6.  The `flush()`/`os.fsync()`/`close()` sequence of
lines 214-216 is outside any `try`: a failure there propagates as an
uncaught exception and the temp file stays behind.  A rename failure unlinks
the temp file and exits 6.  Only the final rename mutates the target path. -/
def durableWrite (env : WriteEnv) : WriteResult :=
  if env.createFails then
    ⟨ExitStatus.exited 6, false, false⟩
  else if env.serializeFails then
    ⟨ExitStatus.exited 6, false, false⟩
  else if env.syncFails then
    ⟨ExitStatus.uncaughtException, true, false⟩
  else if env.renameFails then
    ⟨ExitStatus.exited 6, false, false⟩
  else
    ⟨ExitStatus.success, false, true⟩

/-- Maps an abnormal processing outcome to the process termination status. -/
def runErrorStatus : RunError → ExitStatus
  | RunError.exitCode n => ExitStatus.exited n
  | RunError.typeError => ExitStatus.uncaughtException

/-- Observable outcome of a whole run: termination status, the document that
was serialized onto the target path (when the write completed), whether a
temporary file was leaked, and whether the target file was replaced. -/
structure RunResult where
  status : ExitStatus
  finalDoc : Option Document
  tempLeftBehind : Bool
  originalReplaced : Bool
  deriving Repr, DecidableEq

/-- The whole pipeline after parsing: processing (lines 91-190) followed, on
success only, by the durable write (lines 193-226).  Any processing failure
terminates before the write stage, leaving the target file untouched. -/
def fullRun (ed : ℚ × ℚ → ℚ × ℚ → ℚ) (toolName : String) (doc : Document)
    (renames : List String) (env : WriteEnv) : RunResult :=
  match run ed toolName doc renames with
  | Except.error e => ⟨runErrorStatus e, none, false, false⟩
  | Except.ok doc2 =>
    let w := durableWrite env
    ⟨w.status, if w.originalReplaced then some doc2 else none, w.tempLeftBehind, w.originalReplaced⟩

/-- A stand-in for the external great-circle routine in concrete runs; the
claims do not depend on the values `gps.EarthDistance` returns. -/
def edZero : ℚ × ℚ → ℚ × ℚ → ℚ := fun _ _ => 0

/-- The fault-free write environment. -/
def envOk : WriteEnv := ⟨false, false, false, false⟩

/-- The text the `Distance:` line is appended to when the description
handling succeeds: the old text plus a newline when the `<desc>` element
pre-existed with string text, the empty string when it was just created. -/
def descPrefix : Option (Option String) → String
  | some (some s) => s ++ "\n"
  | _ => ""

theorem descStart_eq (d : Option (Option String)) (h : d ≠ some none) :
    descStart d = Except.ok (descPrefix d) := by
  match d with
  | none => rfl
  | some none => exact absurd rfl h
  | some (some s) => rfl

theorem descStart_ok (d : Option (Option String)) (s : String)
    (h : descStart d = Except.ok s) : s = descPrefix d := by
  match d with
  | none => simpa [descStart, descPrefix] using h.symm
  | some none => simp [descStart] at h
  | some (some t) => simpa [descStart, descPrefix] using h.symm

theorem distLoop_error_eq (ed : ℚ × ℚ → ℚ × ℚ → ℚ) :
    ∀ (l : List TrackPoint) (acc : ℚ) (a : TrackPoint) (e : RunError),
      distLoop ed acc a l = Except.error e → e = RunError.exitCode 4 := by
  intro l
  induction l with
  | nil => intro acc a e h; simp [distLoop] at h
  | cons b rest ih =>
    intro acc a e h
    simp only [distLoop] at h
    split at h
    · split at h
      · exact ih _ _ _ h
      · injection h with h2; exact h2.symm
    · injection h with h2; exact h2.symm

theorem distLoop_ok_points (ed : ℚ × ℚ → ℚ × ℚ → ℚ) :
    ∀ (l : List TrackPoint) (acc : ℚ) (a : TrackPoint) (d : ℚ),
      distLoop ed acc a l = Except.ok d → ∀ p ∈ l, (parsePoint p).isSome := by
  intro l
  induction l with
  | nil => intro acc a d _ p hp; cases hp
  | cons b rest ih =>
    intro acc a d h p hp
    simp only [distLoop] at h
    split at h
    · split at h
      · rename_i pa pb hpa hpb
        rcases List.mem_cons.mp hp with rfl | hp2
        · simp [hpb]
        · exact ih _ _ _ h p hp2
      · exact absurd h (by simp)
    · exact absurd h (by simp)

theorem distLoop_ok_first (ed : ℚ × ℚ → ℚ × ℚ → ℚ) (l : List TrackPoint)
    (acc : ℚ) (a : TrackPoint) (d : ℚ) (hne : l ≠ [])
    (h : distLoop ed acc a l = Except.ok d) : (parsePoint a).isSome := by
  match l with
  | [] => exact absurd rfl hne
  | b :: rest =>
    simp only [distLoop] at h
    split at h
    · split at h
      · rename_i pa pb hpa hpb
        simp [hpa]
      · exact absurd h (by simp)
    · exact absurd h (by simp)

theorem calcDistance_ok_points (ed : ℚ × ℚ → ℚ × ℚ → ℚ) (pts : List TrackPoint)
    (d : ℚ) (h2 : 2 ≤ pts.length) (h : calcDistance ed pts = Except.ok d) :
    ∀ p ∈ pts, (parsePoint p).isSome := by
  match pts with
  | [] => simp at h2
  | a :: rest =>
    have hne : rest ≠ [] := by
      intro hr
      subst hr
      simp at h2
    simp only [calcDistance] at h
    intro p hp
    rcases List.mem_cons.mp hp with rfl | hp2
    · exact distLoop_ok_first ed rest 0 p d hne h
    · exact distLoop_ok_points ed rest 0 a d h p hp2

theorem calcDistance_error_eq (ed : ℚ × ℚ → ℚ × ℚ → ℚ) (pts : List TrackPoint)
    (e : RunError) (h : calcDistance ed pts = Except.error e) :
    e = RunError.exitCode 4 := by
  match pts with
  | [] => simp [calcDistance] at h
  | a :: rest => exact distLoop_error_eq ed rest 0 a e h

theorem calcDistance_invalid (ed : ℚ × ℚ → ℚ × ℚ → ℚ) (pts : List TrackPoint)
    (h2 : 2 ≤ pts.length) (hbad : ∃ p ∈ pts, (parsePoint p).isSome = false) :
    calcDistance ed pts = Except.error (RunError.exitCode 4) := by
  cases hc : calcDistance ed pts with
  | ok d =>
    obtain ⟨p, hp, hbadp⟩ := hbad
    have hv := calcDistance_ok_points ed pts d h2 hc p hp
    rw [hbadp] at hv
    cases hv
  | error e =>
    rw [calcDistance_error_eq ed pts e hc]

theorem processTrack_ok_elim (ed : ℚ × ℚ → ℚ × ℚ → ℚ) (renames : List String)
    (i : Nat) (t : Track) (r : TrackResult) (hne : t.points ≠ [])
    (h : processTrack ed renames i t = Except.ok r) :
    ∃ dist : ℚ, calcDistance ed t.points = Except.ok dist ∧
      descStart t.desc = Except.ok (descPrefix t.desc) ∧
      r = ⟨⟨renameStep renames i t.name,
            some (some (descPrefix t.desc ++ "Distance: " ++ formatDistance dist ++
              durationSuffix t.points)), t.points⟩, false⟩ := by
  simp only [processTrack] at h
  rw [if_neg (by rw [List.length_eq_zero]; exact hne)] at h
  cases hds : descStart t.desc with
  | error e => rw [hds] at h; exact absurd h (by simp)
  | ok pre =>
    rw [hds] at h
    have hpre : pre = descPrefix t.desc := descStart_ok _ _ hds
    cases hcd : calcDistance ed t.points with
    | error e => rw [hcd] at h; exact absurd h (by simp)
    | ok dist =>
      rw [hcd] at h
      subst hpre
      refine ⟨dist, rfl, rfl, ?_⟩
      injection h with h2
      exact h2.symm

theorem processTrack_ok_intro (ed : ℚ × ℚ → ℚ × ℚ → ℚ) (renames : List String)
    (i : Nat) (t : Track) (dist : ℚ) (hne : t.points ≠ [])
    (hdesc : t.desc ≠ some none)
    (hcd : calcDistance ed t.points = Except.ok dist) :
    processTrack ed renames i t =
      Except.ok ⟨⟨renameStep renames i t.name,
        some (some (descPrefix t.desc ++ "Distance: " ++ formatDistance dist ++
          durationSuffix t.points)), t.points⟩, false⟩ := by
  simp only [processTrack]
  rw [if_neg (by rw [List.length_eq_zero]; exact hne), descStart_eq t.desc hdesc, hcd]

theorem processTrack_distance_error (ed : ℚ × ℚ → ℚ × ℚ → ℚ) (renames : List String)
    (i : Nat) (t : Track) (e : RunError) (hne : t.points ≠ [])
    (hdesc : t.desc ≠ some none)
    (hcd : calcDistance ed t.points = Except.error e) :
    processTrack ed renames i t = Except.error e := by
  simp only [processTrack]
  rw [if_neg (by rw [List.length_eq_zero]; exact hne), descStart_eq t.desc hdesc, hcd]

theorem fullRun_of_run_error (ed : ℚ × ℚ → ℚ × ℚ → ℚ) (tn : String)
    (doc : Document) (renames : List String) (env : WriteEnv) (e : RunError)
    (h : run ed tn doc renames = Except.error e) :
    fullRun ed tn doc renames env = ⟨runErrorStatus e, none, false, false⟩ := by
  simp only [fullRun, h]

theorem run_ok_elim (ed : ℚ × ℚ → ℚ × ℚ → ℚ) (tn : String) (doc : Document)
    (renames : List String) (d2 : Document)
    (h : run ed tn doc renames = Except.ok d2) :
    ∃ ts, processTracks ed renames 0 doc.tracks = Except.ok ts ∧
      d2 = updateCreator tn { doc with tracks := ts } := by
  simp only [run] at h
  split at h
  · exact absurd h (by simp)
  · split at h
    · exact absurd h (by simp)
    · split at h
      · exact absurd h (by simp)
      · cases hp : processTracks ed renames 0 doc.tracks with
        | error e => rw [hp] at h; exact absurd h (by simp)
        | ok ts =>
          rw [hp] at h
          injection h with h2
          exact ⟨ts, rfl, h2.symm⟩

/-- A well-formed trackpoint at the origin, without a timestamp. -/
def ptOrigin : TrackPoint := ⟨some (some 0), some (some 0), none⟩

/-- A trackpoint missing both the `lat` and the `lon` attribute. -/
def ptNoCoords : TrackPoint := ⟨none, none, none⟩

/-- C1, counterexample: a track whose `<desc>` element already holds the text
`old` ends up with description `old\nDistance: 0.00 m` — the pre-existing
text is kept and the distance line is appended after a newline, so the final
text is not just the `Distance:` line the claim promises, and repeated runs
accumulate. -/
theorem C1_counterexample :
    processTrack edZero [] 0 ⟨none, some (some "old"), [ptOrigin]⟩ =
      Except.ok ⟨⟨none, some (some "old\nDistance: 0.00 m"), [ptOrigin]⟩, false⟩ ∧
    ("old\nDistance: 0.00 m" : String) ≠ "Distance: " ++ formatDistance 0 := by
  constructor
  · rfl
  · decide

/-- C1 (amended): for every track with at least one trkpt that the processor
handles successfully, the final description text is the previous text
followed by a newline when the `<desc>` element pre-existed (the empty
string when it was created), then the `Distance:` line and the optional
duration suffix — pre-existing description text accumulates instead of being
replaced, so processing the same document twice grows the description. -/
theorem C1_amended (ed : ℚ × ℚ → ℚ × ℚ → ℚ) (renames : List String) (i : Nat)
    (t : Track) (r : TrackResult)
    (h : processTrack ed renames i t = Except.ok r) (hne : t.points ≠ []) :
    ∃ dist : ℚ, calcDistance ed t.points = Except.ok dist ∧
      r.track.desc = some (some (descPrefix t.desc ++ "Distance: " ++
        formatDistance dist ++ durationSuffix t.points)) := by
  obtain ⟨dist, hcd, _, hr⟩ := processTrack_ok_elim ed renames i t r hne h
  exact ⟨dist, hcd, by rw [hr]⟩

/-- Witness for C1 (amended) at a concrete one-point track whose `<desc>`
already holds the text `x`. -/
theorem C1_witness :
    ∃ dist : ℚ, calcDistance edZero [ptOrigin] = Except.ok dist ∧
      (⟨⟨none, some (some "x\nDistance: 0.00 m"), [ptOrigin]⟩, false⟩ :
          TrackResult).track.desc =
        some (some (descPrefix (some (some "x")) ++ "Distance: " ++
          formatDistance dist ++ durationSuffix [ptOrigin])) :=
  C1_amended edZero [] 0 ⟨none, some (some "x"), [ptOrigin]⟩
    ⟨⟨none, some (some "x\nDistance: 0.00 m"), [ptOrigin]⟩, false⟩
    (by rfl) (by simp)

/-- C2, counterexample: an empty track with a rename argument supplied keeps
its old `<name>` — the `continue` of the empty-track branch skips the rename
as well, contrary to the claim. -/
theorem C2_counterexample :
    processTrack edZero ["NewName"] 0 ⟨some (some "Old"), none, []⟩ =
      Except.ok ⟨⟨some (some "Old"), none, []⟩, true⟩ ∧
    (⟨⟨some (some "Old"), none, []⟩, true⟩ : TrackResult).track.name ≠
      some (some "NewName") := by
  constructor
  · rfl
  · decide

/-- C2 (amended): for every track whose flattened trkpt sequence is empty,
the processor emits the non-fatal warning and skips the track entirely —
distance, duration, description update and also the rename: the track is
returned unchanged. -/
theorem C2_amended (ed : ℚ × ℚ → ℚ × ℚ → ℚ) (renames : List String) (i : Nat)
    (t : Track) (h : t.points = []) :
    processTrack ed renames i t = Except.ok ⟨t, true⟩ := by
  simp [processTrack, h]

/-- Witness for C2 (amended) at a concrete empty track with a rename
argument supplied. -/
theorem C2_witness :
    processTrack edZero ["b"] 0 ⟨some (some "a"), none, []⟩ =
      Except.ok ⟨⟨some (some "a"), none, []⟩, true⟩ :=
  C2_amended edZero ["b"] 0 ⟨some (some "a"), none, []⟩ rfl

/-- C3, counterexample: a document whose single track has exactly one trkpt
with neither `lat` nor `lon` is processed without any validation failure —
the validation loop pairs consecutive points and never looks at the sole
point of a one-point track, so the run succeeds and the file is rewritten
instead of aborting with exit code 4. -/
theorem C3_counterexample :
    (fullRun edZero "gpxannotate.py"
        ⟨some "1.0", true, none, [⟨none, none, [ptNoCoords]⟩]⟩ [] envOk).status =
      ExitStatus.success ∧
    (fullRun edZero "gpxannotate.py"
        ⟨some "1.0", true, none, [⟨none, none, [ptNoCoords]⟩]⟩ [] envOk).originalReplaced =
      true ∧
    (parsePoint ptNoCoords).isSome = false := by
  exact ⟨rfl, rfl, rfl⟩

/-- C3 (amended): coordinate validation covers every point of a track with
at least two points — a successful processing implies every point parses,
and an invalid point in such a track makes the processor fail with
`sys.exit 4` (provided the description handling did not already raise the
C5 `TypeError` first); any processing failure terminates the run before the
write stage, leaving the original file untouched.  The sole point of a
one-point track, however, is never validated. -/
theorem C3_amended :
    (∀ (ed : ℚ × ℚ → ℚ × ℚ → ℚ) (renames : List String) (i : Nat)
        (t : Track) (r : TrackResult),
        processTrack ed renames i t = Except.ok r → 2 ≤ t.points.length →
        ∀ p ∈ t.points, (parsePoint p).isSome) ∧
    (∀ (ed : ℚ × ℚ → ℚ × ℚ → ℚ) (renames : List String) (i : Nat) (t : Track),
        2 ≤ t.points.length → t.desc ≠ some none →
        (∃ p ∈ t.points, (parsePoint p).isSome = false) →
        processTrack ed renames i t = Except.error (RunError.exitCode 4)) ∧
    (∀ (ed : ℚ × ℚ → ℚ × ℚ → ℚ) (tn : String) (doc : Document)
        (renames : List String) (env : WriteEnv) (e : RunError),
        run ed tn doc renames = Except.error e →
        fullRun ed tn doc renames env = ⟨runErrorStatus e, none, false, false⟩) := by
  refine ⟨?_, ?_, ?_⟩
  · intro ed renames i t r h h2 p hp
    have hne : t.points ≠ [] := by
      intro h0
      rw [h0] at h2
      simp at h2
    obtain ⟨dist, hcd, -, -⟩ := processTrack_ok_elim ed renames i t r hne h
    exact calcDistance_ok_points ed t.points dist h2 hcd p hp
  · intro ed renames i t h2 hdesc hbad
    have hne : t.points ≠ [] := by
      intro h0
      rw [h0] at h2
      simp at h2
    exact processTrack_distance_error ed renames i t (RunError.exitCode 4) hne hdesc
      (calcDistance_invalid ed t.points h2 hbad)
  · intro ed tn doc renames env e h
    exact fullRun_of_run_error ed tn doc renames env e h

/-- Witness for C3 (amended): a two-point track whose first point lacks its
coordinates makes the processor fail with `sys.exit 4`. -/
theorem C3_witness :
    processTrack edZero [] 0 ⟨none, none, [ptNoCoords, ptOrigin]⟩ =
      Except.error (RunError.exitCode 4) :=
  C3_amended.2.1 edZero [] 0 ⟨none, none, [ptNoCoords, ptOrigin]⟩
    (by decide) (by decide) ⟨ptNoCoords, by decide, by decide⟩

/-- C4, counterexample: when the flush/fsync/close step fails, the script
terminates with an uncaught exception (not `sys.exit 6`) and the temporary
file is left behind, because lines 214-216 sit outside every `try` block. -/
theorem C4_counterexample :
    durableWrite ⟨false, false, true, false⟩ =
      ⟨ExitStatus.uncaughtException, true, false⟩ ∧
    ExitStatus.uncaughtException ≠ ExitStatus.exited 6 := by
  constructor
  · rfl
  · decide

/-- C4 (amended): failures during temporary-file creation, serialization,
or the final rename delete the temporary file (when one was created) and
exit with code 6, leaving the original file unchanged; a failure in the
flush/fsync/close step, however, escapes as an uncaught exception that
leaves the temporary file behind — the original file is still unchanged
either way. -/
theorem C4_amended :
    (∀ env : WriteEnv, env.syncFails = false →
        (env.createFails = true ∨ env.serializeFails = true ∨ env.renameFails = true) →
        durableWrite env = ⟨ExitStatus.exited 6, false, false⟩) ∧
    (∀ env : WriteEnv, env.createFails = false → env.serializeFails = false →
        env.syncFails = true →
        durableWrite env = ⟨ExitStatus.uncaughtException, true, false⟩) := by
  constructor
  · rintro ⟨c, s, y, r⟩ hy hcsr
    simp only at hy hcsr
    subst hy
    rcases hcsr with hc | hs | hr
    · subst hc
      cases s <;> simp [durableWrite]
    · subst hs
      cases c <;> simp [durableWrite]
    · subst hr
      cases c <;> cases s <;> simp [durableWrite]
  · rintro ⟨c, s, y, r⟩ hc hs hy
    simp only at hc hs hy
    subst hc
    subst hs
    subst hy
    simp [durableWrite]

/-- Witness for C4 (amended) at a concrete environment where temp-file
creation fails. -/
theorem C4_witness :
    (⟨true, false, false, false⟩ : WriteEnv).syncFails = false ∧
    durableWrite ⟨true, false, false, false⟩ = ⟨ExitStatus.exited 6, false, false⟩ :=
  ⟨rfl, C4_amended.1 ⟨true, false, false, false⟩ rfl (Or.inl rfl)⟩

/-- The concrete C5 input: a valid GPX 1.0 document whose only track has one
well-formed point and an existing `<desc>` element without text (parsed text
`None`). -/
def docEmptyDesc : Document :=
  ⟨some "1.0", true, some "x", [⟨none, some none, [ptOrigin]⟩]⟩

/-- C5: on a valid GPX 1.0 input whose track has a point and an existing but
empty `<desc>` element, `descElm.text += '\n'` raises an uncaught
`TypeError`: the run terminates with the interpreter's traceback status,
which is none of the script's documented `sys.exit` codes, and no output is
written. -/
theorem C5_empty_desc_typeError :
    (fullRun edZero "gpxannotate.py" docEmptyDesc [] envOk).status =
      ExitStatus.uncaughtException ∧
    (∀ n : Nat, (fullRun edZero "gpxannotate.py" docEmptyDesc [] envOk).status ≠
      ExitStatus.exited n) ∧
    (fullRun edZero "gpxannotate.py" docEmptyDesc [] envOk).originalReplaced = false ∧
    (fullRun edZero "gpxannotate.py" docEmptyDesc [] envOk).tempLeftBehind = false := by
  have hs : (fullRun edZero "gpxannotate.py" docEmptyDesc [] envOk).status =
      ExitStatus.uncaughtException := rfl
  refine ⟨hs, ?_, rfl, rfl⟩
  intro n h
  rw [hs] at h
  simp at h

/-- C6: for every successfully processed track with at least two points, the
description receives the suffix `\nDuration: <e - s> (<s> to <e>)` exactly
when both the first and the last point carry a `<time>` child, where `s` and
`e` are the first and last timestamps — so the rendered duration is the last
point's timestamp minus the first point's. -/
theorem C6_duration (ed : ℚ × ℚ → ℚ × ℚ → ℚ) (renames : List String) (i : Nat)
    (t : Track) (r : TrackResult)
    (h : processTrack ed renames i t = Except.ok r) (hn : 2 ≤ t.points.length) :
    ∃ dist : ℚ, calcDistance ed t.points = Except.ok dist ∧
      ((∃ s e : ℤ, t.points.head?.bind TrackPoint.time = some s ∧
          t.points.getLast?.bind TrackPoint.time = some e ∧
          r.track.desc = some (some (descPrefix t.desc ++ "Distance: " ++
            formatDistance dist ++
            ("\n" ++ ("Duration: " ++ toString (e - s) ++ " (" ++ toString s ++
              " to " ++ toString e ++ ")"))))) ∨
        ((t.points.head?.bind TrackPoint.time = none ∨
            t.points.getLast?.bind TrackPoint.time = none) ∧
          r.track.desc = some (some (descPrefix t.desc ++ "Distance: " ++
            formatDistance dist)))) := by
  have hne : t.points ≠ [] := by
    intro h0
    rw [h0] at hn
    simp at hn
  obtain ⟨dist, hcd, -, hr⟩ := processTrack_ok_elim ed renames i t r hne h
  have hlen : 1 < t.points.length := by omega
  refine ⟨dist, hcd, ?_⟩
  cases hs : t.points.head?.bind TrackPoint.time with
  | none =>
    refine Or.inr ⟨Or.inl rfl, ?_⟩
    have hsuf : durationSuffix t.points = "" := by
      unfold durationSuffix
      rw [if_pos hlen, hs]
    rw [hr]
    simp [hsuf, String.append_empty]
  | some s =>
    cases he : t.points.getLast?.bind TrackPoint.time with
    | none =>
      refine Or.inr ⟨Or.inr rfl, ?_⟩
      have hsuf : durationSuffix t.points = "" := by
        unfold durationSuffix
        rw [if_pos hlen, hs, he]
      rw [hr]
      simp [hsuf, String.append_empty]
    | some e =>
      refine Or.inl ⟨s, e, rfl, rfl, ?_⟩
      have hsuf : durationSuffix t.points =
          "\n" ++ ("Duration: " ++ toString (e - s) ++ " (" ++ toString s ++
            " to " ++ toString e ++ ")") := by
        unfold durationSuffix
        rw [if_pos hlen, hs, he]
        rfl
      rw [hr]
      simp [hsuf]

/-- Trackpoints at the origin carrying timestamps 100 and 400. -/
def ptT100 : TrackPoint := ⟨some (some 0), some (some 0), some 100⟩

/-- See `ptT100`. -/
def ptT400 : TrackPoint := ⟨some (some 0), some (some 0), some 400⟩

/-- Witness for C6 at a concrete two-point track whose endpoints carry the
timestamps 100 and 400: the duration line shows 300. -/
theorem C6_witness :
    ∃ dist : ℚ, calcDistance edZero [ptT100, ptT400] = Except.ok dist ∧
      ((∃ s e : ℤ, ([ptT100, ptT400] : List TrackPoint).head?.bind TrackPoint.time = some s ∧
          ([ptT100, ptT400] : List TrackPoint).getLast?.bind TrackPoint.time = some e ∧
          (⟨⟨none, some (some "Distance: 0.00 m\nDuration: 300 (100 to 400)"),
              [ptT100, ptT400]⟩, false⟩ : TrackResult).track.desc =
            some (some (descPrefix none ++ "Distance: " ++ formatDistance dist ++
              ("\n" ++ ("Duration: " ++ toString (e - s) ++ " (" ++ toString s ++
                " to " ++ toString e ++ ")"))))) ∨
        ((([ptT100, ptT400] : List TrackPoint).head?.bind TrackPoint.time = none ∨
            ([ptT100, ptT400] : List TrackPoint).getLast?.bind TrackPoint.time = none) ∧
          (⟨⟨none, some (some "Distance: 0.00 m\nDuration: 300 (100 to 400)"),
              [ptT100, ptT400]⟩, false⟩ : TrackResult).track.desc =
            some (some (descPrefix none ++ "Distance: " ++ formatDistance dist)))) := by
  have hcalc : calcDistance edZero [ptT100, ptT400] = Except.ok 0 := by
    simp only [calcDistance, distLoop, pointKeysOk, parsePoint, edZero, ptT100, ptT400]
    norm_num
  have hproc : processTrack edZero [] 0 ⟨none, none, [ptT100, ptT400]⟩ =
      Except.ok ⟨⟨none, some (some "Distance: 0.00 m\nDuration: 300 (100 to 400)"),
        [ptT100, ptT400]⟩, false⟩ := by
    simp only [processTrack, descStart, hcalc]
    rfl
  exact C6_duration edZero [] 0 ⟨none, none, [ptT100, ptT400]⟩
    ⟨⟨none, some (some "Distance: 0.00 m\nDuration: 300 (100 to 400)"),
      [ptT100, ptT400]⟩, false⟩ hproc (by decide)

/-- C7, counterexample: a one-point track whose point is well-formed and
even carries a timestamp, but whose `<desc>` element exists with text
`None`, makes the processor raise the uncaught `TypeError` — the
description never receives `Distance: 0.00 m`, so the claim does not hold
for every one-point track. -/
theorem C7_counterexample :
    processTrack edZero [] 0
        ⟨none, some none, [⟨some (some 0), some (some 0), some 500⟩]⟩ =
      Except.error RunError.typeError := by
  rfl

/-- C7 (amended): for every track with exactly one trkpt whose description
handling does not raise (the `<desc>` element is absent or has string text),
the accumulated distance is exactly 0, the description receives the line
`Distance: 0.00 m`, and no duration line is appended — regardless of whether
the point carries a timestamp. -/
theorem C7_amended (ed : ℚ × ℚ → ℚ × ℚ → ℚ) (renames : List String) (i : Nat)
    (t : Track) (h1 : t.points.length = 1) (h2 : t.desc ≠ some none) :
    calcDistance ed t.points = Except.ok 0 ∧
    formatDistance 0 = "0.00 m" ∧
    processTrack ed renames i t =
      Except.ok ⟨⟨renameStep renames i t.name,
        some (some (descPrefix t.desc ++ "Distance: " ++ formatDistance 0)),
        t.points⟩, false⟩ := by
  obtain ⟨p, hp⟩ := List.length_eq_one.mp h1
  have hne : t.points ≠ [] := by
    rw [hp]
    simp
  have hcd : calcDistance ed t.points = Except.ok 0 := by
    rw [hp]
    rfl
  refine ⟨hcd, by decide, ?_⟩
  have hin := processTrack_ok_intro ed renames i t 0 hne h2 hcd
  rw [hin]
  have hsuf : durationSuffix t.points = "" := by
    rw [hp]
    rfl
  rw [hsuf, String.append_empty]

/-- Witness for C7 (amended) at a concrete one-point track whose sole point
carries a timestamp. -/
theorem C7_witness :
    calcDistance edZero [⟨some (some 3), some (some 4), some 7⟩] = Except.ok 0 ∧
    formatDistance 0 = "0.00 m" ∧
    processTrack edZero [] 0 ⟨none, none, [⟨some (some 3), some (some 4), some 7⟩]⟩ =
      Except.ok ⟨⟨renameStep [] 0 none,
        some (some (descPrefix none ++ "Distance: " ++ formatDistance 0)),
        [⟨some (some 3), some (some 4), some 7⟩]⟩, false⟩ :=
  C7_amended edZero [] 0 ⟨none, none, [⟨some (some 3), some (some 4), some 7⟩]⟩
    (by rfl) (by decide)

/-- C8, counterexample: a `creator` attribute that is present but equal to
the empty string is treated like an absent one — it is overwritten with the
tool's own name instead of having `" (processed by <tool-name>)"` appended. -/
theorem C8_counterexample :
    (updateCreator "gpxannotate.py" ⟨some "1.0", true, some "", []⟩).creator =
      some "gpxannotate.py" ∧
    some "gpxannotate.py" ≠
      some ("" ++ " (processed by " ++ "gpxannotate.py" ++ ")") := by
  constructor
  · rfl
  · decide

/-- C8 (amended): at the start of the durable-write stage the root `creator`
attribute is set to the tool's own name when it was absent or equal to the
empty string, and otherwise gets `" (processed by <tool-name>)"` appended;
every successful processing run ends by applying exactly this update. -/
theorem C8_amended :
    (∀ (tn : String) (doc : Document), doc.creator = none ∨ doc.creator = some "" →
        (updateCreator tn doc).creator = some tn) ∧
    (∀ (tn : String) (doc : Document) (c : String), doc.creator = some c → c ≠ "" →
        (updateCreator tn doc).creator = some (c ++ " (processed by " ++ tn ++ ")")) ∧
    (∀ (ed : ℚ × ℚ → ℚ × ℚ → ℚ) (tn : String) (doc : Document)
        (renames : List String) (d2 : Document),
        run ed tn doc renames = Except.ok d2 →
        ∃ ts, processTracks ed renames 0 doc.tracks = Except.ok ts ∧
          d2 = updateCreator tn { doc with tracks := ts }) := by
  refine ⟨?_, ?_, ?_⟩
  · intro tn doc hc
    rcases hc with hc | hc <;> simp [updateCreator, hc]
  · intro tn doc c hc hne
    simp [updateCreator, hc, hne]
  · intro ed tn doc renames d2 h
    exact run_ok_elim ed tn doc renames d2 h

/-- Witness for C8 (amended) at a concrete document whose `creator` is the
empty string. -/
theorem C8_witness :
    (updateCreator "tool" ⟨some "1.0", true, some "", []⟩).creator = some "tool" :=
  C8_amended.1 "tool" ⟨some "1.0", true, some "", []⟩ (Or.inr rfl)

/-- C9: `formatDistance` renders inputs of at least 1000 as the value
divided by 1000 with exactly two decimal places and the suffix `" km"`, and
smaller inputs with exactly two decimal places and the suffix `" m"`; in
particular 999, 1000 and 1500000 render as stated by the spec. -/
theorem C9_formatDistance :
    (∀ d : ℚ, 1000 ≤ d → formatDistance d = format2dp (d / 1000) ++ " km") ∧
    (∀ d : ℚ, d < 1000 → formatDistance d = format2dp d ++ " m") ∧
    (∀ k : ℕ, k < 100 → (padFrac k).length = 2) ∧
    formatDistance 999 = "999.00 m" ∧
    formatDistance 1000 = "1.00 km" ∧
    formatDistance 1500000 = "1500.00 km" := by
  refine ⟨?_, ?_, ?_, ?_, ?_, ?_⟩
  · intro d hd
    simp only [formatDistance]
    rw [if_pos hd]
  · intro d hd
    simp only [formatDistance]
    rw [if_neg (not_le.mpr hd)]
  · decide
  · decide
  · have h : ((1000 : ℚ) / 1000) = 1 := by norm_num
    simp only [formatDistance, h]
    norm_num
    decide
  · have h : ((1500000 : ℚ) / 1000) = 1500 := by norm_num
    simp only [formatDistance, h]
    norm_num
    decide

/-- Witness for C9 at the concrete input 2000. -/
theorem C9_witness :
    (1000 : ℚ) ≤ 2000 ∧ formatDistance 2000 = format2dp (2000 / 1000) ++ " km" :=
  ⟨by norm_num, C9_formatDistance.1 2000 (by norm_num)⟩

/-- C10: a well-formed GPX 1.0 document (version `1.0`, gpx root) with zero
`<trk>` elements makes the run terminate with `sys.exit 5` before the write
stage — no temporary file, no replacement of the original, no output
document. -/
theorem C10_no_tracks (ed : ℚ × ℚ → ℚ × ℚ → ℚ) (tn : String) (doc : Document)
    (renames : List String) (env : WriteEnv)
    (hv : doc.version = some "1.0") (hr : doc.rootTagIsGpx = true)
    (ht : doc.tracks = []) :
    fullRun ed tn doc renames env = ⟨ExitStatus.exited 5, none, false, false⟩ := by
  have hrun : run ed tn doc renames = Except.error (RunError.exitCode 5) := by
    simp +decide [run, hv, hr, ht]
  simp [fullRun, hrun, runErrorStatus]

/-- Witness for C10 at a concrete trackless GPX 1.0 document. -/
theorem C10_witness :
    fullRun edZero "tool" ⟨some "1.0", true, none, []⟩ [] envOk =
      ⟨ExitStatus.exited 5, none, false, false⟩ :=
  C10_no_tracks edZero "tool" ⟨some "1.0", true, none, []⟩ [] envOk rfl rfl rfl

end Gpx
